import Mathlib

/-!
Verification development for the certificate-revocation command
(`command/ca/revoke.go`): a shallow embedding of the revocation flow
(reason-code resolution, bearer-token inspection, CA-client resolution,
mTLS transport construction and final dispatch), together with theorems
about the embedded definitions.

External collaborators (JOSE token parsing, PEM/X.509 parsing, the file
system and the network) are modelled as oracles carried in an `Env`
record; every branch of the Go source is translated explicitly.
-/

deriving instance DecidableEq for Except

namespace StepCLI

/-! ## Errors

Each constructor corresponds to one `return err` site of the source (or
of an `errs.*` helper it calls).  For `requiredWithFlag f w` the message
is "flag --f requires the --w flag", i.e. `w` is the missing flag. -/

inductive RevokeError where
  /-- Source: `errors.Errorf("reasonCode out of bounds. Got %d, ...")` -/
  | reasonOutOfBounds (code : Int)
  /-- Source: `errors.Errorf("unrecognized revocation reason code '%s'", rc)` -/
  | unrecognizedReason (rc : String)
  /-- Source: `errs.IncompatibleFlagWithFlag(ctx, f, g)` (when its result is returned) -/
  | incompatibleFlags (flag other : String)
  /-- Source: `errs.InvalidFlagValue(ctx, "ca-config", "", "")` -/
  | invalidFlagValue (flag : String)
  /-- Source: `cautils.NewOfflineCA` failed -/
  | offlineCAError
  /-- Source: `offlineClient.VerifyClientCert` failed -/
  | verifyClientCertError
  /-- Source: `'... --cert <certificate> --key <key>' expects no additional positional arguments` -/
  | positionalArgsWithCertKey
  /-- Source: `errs.RequiredWithFlag(ctx, flag, withFlag)`: `withFlag` is required by `flag` -/
  | requiredWithFlag (flag withFlag : String)
  /-- Source: `pemutil.ReadCertificateBundle` failed -/
  | certBundleReadError
  /-- Source: `errs.NumberOfArguments(ctx, 1)` with the given actual count -/
  | numberOfArguments (got expected : Nat)
  /-- Source: `flags.ParseCaURLIfExists` failed -/
  | caURLParseError
  /-- Source: `errors.Wrap(err, "error parsing flag '--token'")` from `jose.ParseSigned` -/
  | tokenParseError
  /-- Source: `errors.Wrap(err, "error parsing flag '--token'")` from `UnsafeClaimsWithoutVerification` -/
  | claimsParseError
  /-- Source: `errors.Errorf("token subject '%s' and serial number '%s' do not match", ...)` -/
  | subjectSerialMismatch (subject serial : String)
  /-- Source: `errs.RequiredFlag(ctx, flag)` -/
  | requiredFlag (flag : String)
  /-- Source: `errs.RequiredUnlessFlag(ctx, flag, unlessFlag)` -/
  | requiredUnlessFlag (flag unlessFlag : String)
  /-- Source: `errors.Wrap(err, "error reading certificate")` -/
  | certReadError
  /-- Source: `errors.Wrap(err, "error parsing key")` -/
  | keyParseError
  /-- Source: `errors.Wrap(err, "error serializing key")` -/
  | keySerializeError
  /-- Source: `errors.Wrap(err, "error loading certificate key pair")` -/
  | keyPairError
  /-- Source: `errors.New("error loading certificate: certificate chain is empty")` -/
  | emptyChainError
  /-- Source: `x509util.ReadCertPool` failed -/
  | certPoolError
  /-- Source: `ui.Prompt` failed -/
  | promptError
  /-- token generation (`cautils.NewTokenFlow` / `offlineCA.GenerateToken`) failed -/
  | tokenFlowError
  /-- the CA client's `Revoke` call returned an error (propagated unchanged) -/
  | remoteError
deriving DecidableEq, Repr

/-! ## Reason Code Resolver (`ReasonCodeToNum`, `RevocationReasonCodes`) -/

/-- Value of a list of decimal digit characters; `none` if the list is
empty or contains a non-digit.  Models the digit loop of Go
`strconv.ParseInt(s, 10, 0)`. -/
def digitsVal : List Char → Option Nat
  | [] => none
  | cs => cs.foldlM (fun acc c =>
      if c.isDigit then some (acc * 10 + (c.toNat - 48)) else none) 0

/-- Model of Go `strconv.Atoi` (i.e. `ParseInt(s, 10, 0)` on a 64-bit
platform): an optional sign followed by at least one ASCII digit, with
the result required to fit in a signed 64-bit integer (`ErrRange`
otherwise, modelled as `none`). -/
def goAtoi (s : String) : Option Int :=
  match s.data with
  | [] => none
  | c :: rest =>
    let signedDigits : Bool × List Char :=
      if c = '-' then (true, rest)
      else if c = '+' then (false, rest)
      else (false, c :: rest)
    match digitsVal signedDigits.2 with
    | none => none
    | some n =>
      let v : Int := if signedDigits.1 then -(n : Int) else (n : Int)
      if -(2 ^ 63) ≤ v ∧ v < 2 ^ 63 then some v else none

/-- Source: `RevocationReasonCodes`: map from normalized reason name to RFC 5280
integer code (the `ocsp.*` constants; code 7 has no entry). -/
def RevocationReasonCodes : List (String × Int) :=
  [("unspecified", 0),
   ("keycompromise", 1),
   ("cacompromise", 2),
   ("affiliationchanged", 3),
   ("superseded", 4),
   ("cessationofoperation", 5),
   ("certificatehold", 6),
   ("removefromcrl", 8),
   ("privilegewithdrawn", 9),
   ("aacompromise", 10)]

/-- Source: `strings.ToLower(strings.ReplaceAll(rc, " ", ""))`: with the
single-character pattern `" "`, `ReplaceAll` with `""` removes every
space; `ToLower` is ASCII lowercasing here (reason names are ASCII). -/
def normalizeReason (rc : String) : String :=
  String.mk ((rc.data.filter (fun c => c ≠ ' ')).map Char.toLower)

/-- Source: `ReasonCodeToNum`: convert a string encoded reason code to a number.
Empty string defaults to 0; a string accepted by `strconv.Atoi` must lie
in `[ocsp.Unspecified, ocsp.AACompromise]` = [0, 10]; anything else is
normalized and looked up in `RevocationReasonCodes`. -/
def ReasonCodeToNum (rc : String) : Except RevokeError Int :=
  if rc = ("") then .ok 0
  else
    match goAtoi rc with
    | some code =>
      if code < 0 ∨ 10 < code then .error (.reasonOutOfBounds code)
      else .ok code
    | none =>
      match List.lookup (normalizeReason rc) RevocationReasonCodes with
      | some code => .ok code
      | none => .error (.unrecognizedReason rc)

/-! ## Data model: token claims, clients, transports, requests -/

/-- Source: `revokeTokenClaims`: the unverified claims extracted from the bearer
token (`SHA` plus the embedded `jose.Claims` fields the code reads:
`Subject` and `Audience`). -/
structure revokeTokenClaims where
  sha : String
  subject : String
  audience : List String
deriving DecidableEq, Repr

/-- Outcome of `jose.ParseSigned` followed by
`UnsafeClaimsWithoutVerification` on a raw token string. -/
inductive TokenParse where
  /-- Source: `jose.ParseSigned` failed: the token is not a well-formed signed structure -/
  | malformed
  /-- Source: `UnsafeClaimsWithoutVerification` failed -/
  | badClaims
  /-- claims extracted (signature and expiry intentionally unchecked) -/
  | parsed (claims : revokeTokenClaims)
deriving DecidableEq, Repr

/-- The trust anchor a constructed online client is bound to: either a
pinned root SHA-256 fingerprint (`ca.WithRootSHA256`) or a root
certificate file (`ca.WithRootFile`). -/
inductive TrustAnchor where
  | rootSHA256 (sha : String)
  | rootFile (path : String)
deriving DecidableEq, Repr

/-- The abstract CA client (`cautils.CaClient`): the pre-constructed
offline client, or an online client built by `ca.NewClient(caURL,
options...)`, recorded with its URL and trust anchor. -/
inductive CaClient where
  | offline
  | online (caURL : String) (anchor : TrustAnchor)
deriving DecidableEq, Repr

/-- The mTLS transport (`http.Transport`) built in `Revoke` when no
token is present, recorded with the fields the source sets. -/
structure Transport where
  rootCAsPath : String
  clientCertChainLen : Nat
  preferServerCipherSuites : Bool
  proxyFromEnvironment : Bool
deriving DecidableEq, Repr

/-- Source: `api.RevokeRequest`: the payload handed to `client.Revoke`. -/
structure RevokeRequest where
  serial : String
  reason : String
  reasonCode : Int
  ott : String
  passive : Bool
deriving DecidableEq, Repr

/-- What the dispatch step passes to `client.Revoke(req, tr)`. -/
structure Dispatch where
  client : CaClient
  transport : Option Transport
  req : RevokeRequest
deriving DecidableEq, Repr

/-- Result of a complete run of the action: the serial number reported
as revoked, together with the dispatch that was issued. -/
structure FlowOutcome where
  reportedSerial : String
  dispatch : Dispatch
deriving DecidableEq, Repr

/-- Source: `pki.GetRootCAPath()`: the well-known default root certificate
location (under the step path). -/
def defaultRootCAPath : String := ".step/certs/root_ca.crt"

/-- Oracles for the external collaborators: JOSE parsing, the file
system, PEM/X.509 utilities, the prompt, token generation and the
remote CA.  Each field models the outcome of one external call. -/
structure Env where
  /-- Source: `jose.ParseSigned` + `UnsafeClaimsWithoutVerification` on a raw token -/
  parseSigned : String → TokenParse
  /-- Source: `os.Stat(pki.GetRootCAPath())` succeeds -/
  defaultRootExists : Bool
  /-- Source: `cautils.NewOfflineCA` succeeds -/
  offlineCAOk : Bool
  /-- Source: `offlineClient.VerifyClientCert(certFile, keyFile)` succeeds -/
  verifyClientCertOk : Bool
  /-- Source: `pemutil.ReadCertificateBundle(certFile)`: serial-number strings of
  the certificates in the bundle (head + tail: a successful read yields
  at least one certificate), or a read/parse error -/
  certBundle : Except Unit (String × List String)
  /-- Source: `os.ReadFile(certFile)` succeeds -/
  certReadOk : Bool
  /-- Source: `pemutil.Read(keyFile)` succeeds -/
  keyParseOk : Bool
  /-- Source: `pemutil.Serialize(key)` succeeds -/
  keySerializeOk : Bool
  /-- Source: `tls.X509KeyPair`: length of the resulting certificate chain, or a
  pairing error -/
  keyPair : Except Unit Nat
  /-- Source: `x509util.ReadCertPool(root)` succeeds -/
  readCertPoolOk : Bool
  /-- Source: `ui.Prompt` for the serial number (validated non-empty) -/
  prompt : Except Unit String
  /-- Source: `cautils.NewTokenFlow(...)`: the generated bearer token -/
  newTokenFlow : Except Unit String
  /-- Source: `offlineCA.GenerateToken(...)`: the generated bearer token -/
  offlineGenerateToken : Except Unit String
  /-- Source: `client.Revoke(req, tr)` succeeds -/
  remoteRevokeOk : Bool

/-- The flag/argument inputs of one invocation, as the `cli.Context`
delivers them to `revokeCertificateAction`. -/
structure ActionInput where
  /-- positional arguments (`ctx.Args()`) -/
  args : List String
  /-- Source: `ctx.String("cert")` -/
  certFile : String
  /-- Source: `ctx.String("key")` -/
  keyFile : String
  /-- Source: `ctx.String("token")` -/
  tokenFlag : String
  /-- Source: `ctx.Bool("offline")` -/
  offline : Bool
  /-- Source: `ctx.String("reasonCode")` -/
  reasonCodeFlag : String
  /-- Source: `ctx.String("reason")` -/
  reason : String
  /-- Source: `ctx.String("ca-config")` -/
  caConfig : String
  /-- Source: `flags.ParseCaURLIfExists(ctx)`: `.ok ""` when the flag is unset,
  `.error` when the supplied URL fails to parse -/
  caURLRes : Except Unit String
  /-- Source: `ctx.String("root")` -/
  rootFlag : String

/-- ASCII model of `strings.EqualFold` (serial numbers and token
subjects are ASCII): equality after lowercasing. -/
def goEqualFold (a b : String) : Bool :=
  a.data.map Char.toLower == b.data.map Char.toLower

/-- Source: `strings.HasPrefix(strings.ToLower(s), "http")`. -/
def startsWithHTTP (s : String) : Bool :=
  List.isPrefixOf (("http").data) (s.data.map Char.toLower)

/-! ## CA Client Resolver (`revokeFlow.getClient`) -/

/-- Source: `revokeFlow`: the unified online/offline flow object built by
`newRevokeFlow` (the offline client itself lives in `Env`). -/
structure revokeFlow where
  offline : Bool
deriving DecidableEq, Repr

/-- The common tail of `getClient`: resolve the root trust file
(defaulting to `pki.GetRootCAPath()`, which must exist on disk) and
construct the online client with `ca.WithRootFile`. -/
def finishOnlineClient (rootFlag : String) (defaultRootExists : Bool)
    (caURL : String) : Except RevokeError CaClient :=
  if rootFlag = ("") then
    if defaultRootExists then .ok (.online caURL (.rootFile defaultRootCAPath))
    else .error (.requiredFlag ("root"))
  else .ok (.online caURL (.rootFile rootFlag))

/-- Source: `revokeFlow.getClient(ctx, serial, token)`: offline returns the
offline client unconditionally; online parses the CA URL flag, then
either inspects the token (subject cross-check, then the bootstrap-hint
branch pinning the claimed root fingerprint) or, with no token, insists
on an explicit CA URL; otherwise resolves a root file and builds the
client. -/
def revokeFlow.getClient (f : revokeFlow) (env : Env) (inp : ActionInput)
    (serial token : String) : Except RevokeError CaClient :=
  if f.offline then .ok .offline
  else
    match inp.caURLRes with
    | .error _ => .error .caURLParseError
    | .ok caURL =>
      if token ≠ ("") then
        match env.parseSigned token with
        | .malformed => .error .tokenParseError
        | .badClaims => .error .claimsParseError
        | .parsed claims =>
          if goEqualFold claims.subject serial = false then
            .error (.subjectSerialMismatch claims.subject serial)
          else if claims.sha ≠ ("") ∧ claims.audience ≠ [] ∧
              startsWithHTTP (claims.audience.headD ("")) = true then
            .ok (.online (if caURL = ("") then claims.audience.headD ("") else caURL)
              (.rootSHA256 claims.sha))
          else
            finishOnlineClient inp.rootFlag env.defaultRootExists caURL
      else
        if caURL = ("") then .error (.requiredFlag ("ca-url"))
        else finishOnlineClient inp.rootFlag env.defaultRootExists caURL

/-! ## mTLS Transport Builder (the `token == ""` block of `Revoke`) -/

/-- The transport-construction block of `Revoke`: read the certificate
file, read/parse the key, re-serialize it, pair certificate and key
(empty chain is a distinct failure), resolve the root pool (flag or
well-known default, which must exist), and build the `http.Transport`
with ambient proxy and server cipher-suite preference. -/
def buildTransport (env : Env) (inp : ActionInput) :
    Except RevokeError Transport :=
  if env.certReadOk = false then .error .certReadError
  else if env.keyParseOk = false then .error .keyParseError
  else if env.keySerializeOk = false then .error .keySerializeError
  else
    match env.keyPair with
    | .error _ => .error .keyPairError
    | .ok chainLen =>
      if chainLen = 0 then .error .emptyChainError
      else
        match (if inp.rootFlag = ("") then
                (if env.defaultRootExists then Except.ok defaultRootCAPath
                 else .error (RevokeError.requiredUnlessFlag ("root") ("token")))
               else .ok inp.rootFlag) with
        | .error e => .error e
        | .ok root =>
          if env.readCertPoolOk = false then .error .certPoolError
          else .ok { rootCAsPath := root,
                     clientCertChainLen := chainLen,
                     preferServerCipherSuites := true,
                     proxyFromEnvironment := true }

/-! ## Flow construction and token generation -/

/-- Source: `newRevokeFlow(ctx, certFile, keyFile)`: in offline mode requires a
`ca-config`, constructs the offline CA and, when cert/key flags are
present, verifies the client certificate against it. -/
def newRevokeFlow (env : Env) (inp : ActionInput) :
    Except RevokeError revokeFlow :=
  if inp.offline then
    if inp.caConfig = ("") then .error (.invalidFlagValue ("ca-config"))
    else if env.offlineCAOk = false then .error .offlineCAError
    else if (inp.certFile ≠ ("") ∨ inp.keyFile ≠ ("")) ∧
        env.verifyClientCertOk = false then .error .verifyClientCertError
    else .ok { offline := true }
  else .ok { offline := false }

/-- Source: `revokeFlow.GenerateToken(ctx, &subject)`: offline mints the token
with the offline CA's signing material; online requires a CA URL and a
root (flag or existing default), prompts for the serial number when it
is still empty, and runs the provisioner token flow.  Returns the token
together with the (possibly prompt-updated) subject, modelling the
in-place update through the `*string` argument. -/
def revokeFlow.GenerateToken (f : revokeFlow) (env : Env)
    (inp : ActionInput) (subject : String) :
    Except RevokeError (String × String) :=
  if f.offline then
    match env.offlineGenerateToken with
    | .error _ => .error .tokenFlowError
    | .ok t => .ok (t, subject)
  else
    match inp.caURLRes with
    | .error _ => .error .caURLParseError
    | .ok caURL =>
      if caURL = ("") then .error (.requiredUnlessFlag ("ca-url") ("token"))
      else
        match (if inp.rootFlag = ("") then
                (if env.defaultRootExists then Except.ok defaultRootCAPath
                 else .error (RevokeError.requiredUnlessFlag ("root") ("token")))
               else .ok inp.rootFlag) with
        | .error e => .error e
        | .ok _ =>
          match (if subject = ("") then
                  (match env.prompt with
                   | .error _ => Except.error RevokeError.promptError
                   | .ok s => .ok s)
                 else .ok subject) with
          | .error e => .error e
          | .ok subj =>
            match env.newTokenFlow with
            | .error _ => .error .tokenFlowError
            | .ok t => .ok (t, subj)

/-! ## Dispatch (`revokeFlow.Revoke`) -/

/-- The dispatch step of `revokeFlow.Revoke(ctx, serial, token)` up to
the moment `client.Revoke(req, tr)` is invoked: resolve the client,
the reason string and code, build the mTLS transport exactly when no
token is present, and assemble the `api.RevokeRequest` (always
passive). -/
def revokeDispatch (env : Env) (f : revokeFlow) (inp : ActionInput)
    (serial token : String) : Except RevokeError Dispatch :=
  match f.getClient env inp serial token with
  | .error e => .error e
  | .ok client =>
    match ReasonCodeToNum inp.reasonCodeFlag with
    | .error e => .error e
    | .ok reasonCode =>
      match (if token = ("") then
              (match buildTransport env inp with
               | .error e => Except.error e
               | .ok t => .ok (some t))
             else .ok none) with
      | .error e => .error e
      | .ok tr =>
        .ok { client := client,
              transport := tr,
              req := { serial := serial,
                       reason := inp.reason,
                       reasonCode := reasonCode,
                       ott := token,
                       passive := true } }

/-- Source: `revokeFlow.Revoke`: the dispatch step followed by the remote call,
whose error is propagated unchanged. -/
def revokeFlow.Revoke (f : revokeFlow) (env : Env) (inp : ActionInput)
    (serial token : String) : Except RevokeError Dispatch :=
  match revokeDispatch env f inp serial token with
  | .error e => .error e
  | .ok d => if env.remoteRevokeOk then .ok d else .error .remoteError

/-! ## Revocation Flow Controller (`revokeCertificateAction`) -/

/-- Source: `revokeCertificateAction(ctx)`: validate the reason code early,
reject offline+token, build the flow, then branch: with cert/key flags
the serial comes from the first certificate of the bundle (no
positional arguments allowed, both flags required together, the
incompatibility checks on token/serial are computed but their results
discarded); otherwise exactly one positional argument, generating a
token when none was supplied.  Finally dispatch and report the serial. -/
def revokeCertificateAction (env : Env) (inp : ActionInput) :
    Except RevokeError FlowOutcome :=
  match ReasonCodeToNum inp.reasonCodeFlag with
  | .error e => .error e
  | .ok _ =>
    if inp.offline ∧ inp.tokenFlag ≠ ("") then
      .error (.incompatibleFlags ("offline") ("token"))
    else
      match newRevokeFlow env inp with
      | .error e => .error e
      | .ok flow =>
        if inp.certFile ≠ ("") ∨ inp.keyFile ≠ ("") then
          if inp.args.length > 0 then .error .positionalArgsWithCertKey
          else if inp.certFile = ("") then
            .error (.requiredWithFlag ("key") ("cert"))
          else if inp.keyFile = ("") then
            .error (.requiredWithFlag ("cert") ("key"))
          else
            -- `errs.IncompatibleFlagWithFlag(ctx, "cert", "token")` and
            -- `errs.IncompatibleFlagWithFlag(ctx, "cert", "serial")` are
            -- evaluated here but their results are not returned.
            match env.certBundle with
            | .error _ => .error .certBundleReadError
            | .ok (first, _) =>
              match flow.Revoke env inp first inp.tokenFlag with
              | .error e => .error e
              | .ok d => .ok { reportedSerial := first, dispatch := d }
        else
          if inp.args.length ≠ 1 then
            .error (.numberOfArguments inp.args.length 1)
          else
            match (if inp.tokenFlag = ("") then
                    flow.GenerateToken env inp (inp.args.headD (""))
                   else .ok (inp.tokenFlag, inp.args.headD (""))) with
            | .error e => .error e
            | .ok (token, serial) =>
              match flow.Revoke env inp serial token with
              | .error e => .error e
              | .ok d => .ok { reportedSerial := serial, dispatch := d }

/-! ## Concrete fixtures used by witnesses -/

/-- Claims of the fixture token `"tok"`: subject `"123"`, with both
routing hints populated. -/
def claimsFix : revokeTokenClaims :=
  { sha := "abc123", subject := "123", audience := ["https://hinted.ca:9000"] }

/-- Claims of the fixture token `"tok987"`: subject `"987"`, with no
usable routing hint (empty fingerprint, empty audience). -/
def claimsNoHint : revokeTokenClaims :=
  { sha := "", subject := "987", audience := [] }

/-- A fixture environment in which every external collaborator
succeeds; three recognizable tokens parse, everything else is
malformed. -/
def envFix : Env :=
  { parseSigned := fun t =>
      if t = ("tok") then .parsed claimsFix
      else if t = ("gen-tok") then .parsed claimsFix
      else if t = ("tok987") then .parsed claimsNoHint
      else .malformed,
    defaultRootExists := true,
    offlineCAOk := true,
    verifyClientCertOk := true,
    certBundle := .ok (("987"), []),
    certReadOk := true,
    keyParseOk := true,
    keySerializeOk := true,
    keyPair := .ok 2,
    readCertPoolOk := true,
    prompt := .ok ("555"),
    newTokenFlow := .ok ("gen-tok"),
    offlineGenerateToken := .ok ("off-tok"),
    remoteRevokeOk := true }

/-- A fixture invocation: online, one positional serial-number
argument, no flags. -/
def inpFix : ActionInput :=
  { args := [("123")],
    certFile := "",
    keyFile := "",
    tokenFlag := "",
    offline := false,
    reasonCodeFlag := "",
    reason := "",
    caConfig := "",
    caURLRes := .ok (""),
    rootFlag := "" }

/-! ## Theorems about the CA Client Resolver (claims C1, C2, C8, C10) -/

/-- Claim C1, counterexample: with an explicit CA URL supplied and a
token carrying both routing hints, the resolver still pins the trust
anchor to the claimed fingerprint (`ca.WithRootSHA256`) instead of
reading a root file — the fingerprint hint is used even though the
caller already supplied an explicit CA URL, contradicting "the hints
are used only when the caller did not already supply an explicit CA
URL". -/
theorem hint_pinned_despite_explicit_caurl :
    revokeFlow.getClient { offline := false } envFix
      { inpFix with caURLRes := .ok ("https://explicit.ca") }
      ("123") ("tok") =
      .ok (.online ("https://explicit.ca") (.rootSHA256 ("abc123"))) := by
  decide

/-- Claim C1 (amended): in online mode with a parsed token whose subject
matches the serial and whose claims carry a non-empty fingerprint and
an audience whose first entry begins with an HTTP scheme, the resolver
pins the trust anchor to the claimed fingerprint (no root file is
read); the audience entry is adopted as the CA URL exactly when the
caller supplied no explicit CA URL, an explicit CA URL otherwise
being kept (while the fingerprint is pinned in both cases). -/
theorem token_hint_resolution (env : Env) (f : revokeFlow)
    (inp : ActionInput) (serial token caURL : String)
    (claims : revokeTokenClaims)
    (hoff : f.offline = false) (hca : inp.caURLRes = .ok caURL)
    (htok : token ≠ ("")) (hp : env.parseSigned token = .parsed claims)
    (hsub : goEqualFold claims.subject serial = true)
    (hsha : claims.sha ≠ ("")) (haud : claims.audience ≠ [])
    (hhttp : startsWithHTTP (claims.audience.headD ("")) = true) :
    f.getClient env inp serial token =
      .ok (.online
        (if caURL = ("") then claims.audience.headD ("") else caURL)
        (.rootSHA256 claims.sha)) := by
  simp only [revokeFlow.getClient, hoff, Bool.false_eq_true, if_false, hca,
    if_pos htok, hp, hsub, Bool.true_eq_false, if_false]
  exact if_pos ⟨hsha, haud, hhttp⟩

/-- Witness for `token_hint_resolution`: with no explicit CA URL, the
fixture token's audience entry becomes the CA URL and its fingerprint
the pinned anchor. -/
theorem token_hint_resolution_witness :
    revokeFlow.getClient { offline := false } envFix inpFix
      ("123") ("tok") =
      .ok (.online ("https://hinted.ca:9000") (.rootSHA256 ("abc123"))) := by
  have h := token_hint_resolution envFix { offline := false } inpFix
    ("123") ("tok") ("") claimsFix rfl rfl (by decide) (by decide)
    (by decide) (by decide) (by decide) (by decide)
  simpa using h

/-- Claim C2: with a token present and parsed, resolution passes the
cross-check only if the claim subject case-insensitively equals the
serial number; any mismatch fails with the descriptive
subject/serial-mismatch error. -/
theorem subject_serial_crosscheck (env : Env) (f : revokeFlow)
    (inp : ActionInput) (serial token caURL : String)
    (claims : revokeTokenClaims)
    (hoff : f.offline = false) (hca : inp.caURLRes = .ok caURL)
    (htok : token ≠ ("")) (hp : env.parseSigned token = .parsed claims) :
    (goEqualFold claims.subject serial = false →
      f.getClient env inp serial token =
        .error (.subjectSerialMismatch claims.subject serial)) ∧
    (goEqualFold claims.subject serial = true →
      f.getClient env inp serial token ≠
        .error (.subjectSerialMismatch claims.subject serial)) := by
  constructor
  · intro hne
    simp only [revokeFlow.getClient, hoff, Bool.false_eq_true, if_false,
      hca, if_pos htok, hp, hne, if_true]
  · intro heq h
    simp only [revokeFlow.getClient, hoff, Bool.false_eq_true, if_false,
      hca, if_pos htok, hp, heq, Bool.true_eq_false, if_false] at h
    split at h
    · simp at h
    · unfold finishOnlineClient at h
      split at h
      · split at h <;> simp at h
      · simp at h

/-- Witness for `subject_serial_crosscheck`: fixture token subject
"123" against serial "456" fails with the mismatch error; against
serial "123" it does not produce the mismatch error. -/
theorem subject_serial_crosscheck_witness :
    revokeFlow.getClient { offline := false } envFix inpFix
      ("456") ("tok") =
      .error (.subjectSerialMismatch ("123") ("456")) ∧
    revokeFlow.getClient { offline := false } envFix inpFix
      ("123") ("tok") ≠
      .error (.subjectSerialMismatch ("123") ("123")) := by
  constructor
  · exact (subject_serial_crosscheck envFix { offline := false } inpFix
      ("456") ("tok") ("") claimsFix rfl rfl (by decide) (by decide)).1
      (by decide)
  · exact (subject_serial_crosscheck envFix { offline := false } inpFix
      ("123") ("tok") ("") claimsFix rfl rfl (by decide) (by decide)).2
      (by decide)

/-! ## Theorems about the dispatch step (claim C3) -/

/-- Claim C3: whenever the dispatch step completes, the mTLS transport
was built if and only if the bearer token is empty (with a token
present the transport is `none`), and the dispatched request carries
`passive = true` together with the resolved serial, reason, reason
code and token. -/
theorem dispatch_invariants (env : Env) (f : revokeFlow)
    (inp : ActionInput) (serial token : String) (d : Dispatch)
    (h : revokeDispatch env f inp serial token = .ok d) :
    (d.transport.isSome = true ↔ token = ("")) ∧
    d.req.passive = true ∧
    d.req.serial = serial ∧
    d.req.reason = inp.reason ∧
    d.req.ott = token ∧
    ReasonCodeToNum inp.reasonCodeFlag = .ok d.req.reasonCode := by
  unfold revokeDispatch at h
  split at h
  · simp at h
  split at h
  · simp at h
  by_cases ht : token = ("")
  · rw [if_pos ht] at h
    split at h
    · simp at h
    · rename_i heqt _ _ _ t heq
      split at heq
      · simp at heq
      · cases heq
        cases h
        simp_all
  · rw [if_neg ht] at h
    rename_i heqt
    cases h
    simp_all

/-- Witness for `dispatch_invariants` at two concrete dispatches: with
an empty token a transport is present; with the fixture token the
transport is `none` and the request carries the token. -/
theorem dispatch_invariants_witness :
    ((revokeDispatch envFix { offline := false }
        { inpFix with caURLRes := .ok ("https://ca.example") }
        ("123") ("")).map
      (fun d => d.transport.isSome) = .ok true) ∧
    ((revokeDispatch envFix { offline := false } inpFix
        ("123") ("tok")).map
      (fun d => (d.transport.isSome, d.req.ott, d.req.passive)) =
      .ok (false, ("tok"), true)) := by
  have h1 := dispatch_invariants envFix { offline := false }
    { inpFix with caURLRes := .ok ("https://ca.example") }
    ("123") ("")
    { client := .online ("https://ca.example") (.rootFile defaultRootCAPath),
      transport := some { rootCAsPath := defaultRootCAPath,
                          clientCertChainLen := 2,
                          preferServerCipherSuites := true,
                          proxyFromEnvironment := true },
      req := { serial := ("123"), reason := "", reasonCode := 0,
               ott := "", passive := true } }
    (by decide)
  have h2 := dispatch_invariants envFix { offline := false } inpFix
    ("123") ("tok")
    { client := .online ("https://hinted.ca:9000")
        (.rootSHA256 ("abc123")),
      transport := none,
      req := { serial := ("123"), reason := "", reasonCode := 0,
               ott := ("tok"), passive := true } }
    (by decide)
  exact ⟨by decide, by decide⟩

/-! ## Theorems about the flow controller
(claims C5, C6, C7, C9) -/

/-- Claim C5: offline mode together with a non-empty token flag fails
with the incompatible-flags error.  The environment `env` (carrying
every file-system and collaborator oracle) is universally quantified
and absent from the conclusion, so the failure is decided before any
file access. -/
theorem offline_token_incompatible (env : Env) (inp : ActionInput)
    (n : Int) (hreason : ReasonCodeToNum inp.reasonCodeFlag = .ok n)
    (hoff : inp.offline = true) (htok : inp.tokenFlag ≠ ("")) :
    revokeCertificateAction env inp =
      .error (.incompatibleFlags ("offline") ("token")) := by
  unfold revokeCertificateAction
  rw [hreason]
  exact if_pos ⟨hoff, htok⟩

/-- Witness for `offline_token_incompatible`: offline with token
`"tok"`, in two environments that disagree on every file-system
oracle, fails identically. -/
theorem offline_token_incompatible_witness :
    revokeCertificateAction envFix
      { inpFix with offline := true, tokenFlag := ("tok"),
                    caConfig := ("ca.json") } =
      .error (.incompatibleFlags ("offline") ("token")) ∧
    revokeCertificateAction
      { envFix with defaultRootExists := false, offlineCAOk := false,
                    certBundle := .error (), certReadOk := false }
      { inpFix with offline := true, tokenFlag := ("tok"),
                    caConfig := ("ca.json") } =
      .error (.incompatibleFlags ("offline") ("token")) :=
  ⟨offline_token_incompatible envFix
      { inpFix with offline := true, tokenFlag := ("tok"),
                    caConfig := ("ca.json") } 0 (by decide) (by decide)
      (by decide),
   offline_token_incompatible
      { envFix with defaultRootExists := false, offlineCAOk := false,
                    certBundle := .error (), certReadOk := false }
      { inpFix with offline := true, tokenFlag := ("tok"),
                    caConfig := ("ca.json") } 0 (by decide) (by decide)
      (by decide)⟩

/-- Claim C6: when a certificate path or key path is supplied, any
positional argument aborts the flow; otherwise the serial number used
for the revocation request (and reported on success) is the one read
from the first certificate of the supplied bundle. -/
theorem certkey_branch_serial (env : Env) (inp : ActionInput)
    (flow : revokeFlow) (n : Int)
    (hreason : ReasonCodeToNum inp.reasonCodeFlag = .ok n)
    (hgate : ¬(inp.offline = true ∧ inp.tokenFlag ≠ ("")))
    (hflow : newRevokeFlow env inp = .ok flow)
    (hck : inp.certFile ≠ ("") ∨ inp.keyFile ≠ ("")) :
    (inp.args.length > 0 →
      revokeCertificateAction env inp =
        .error .positionalArgsWithCertKey) ∧
    (∀ first : String, ∀ rest : List String,
      env.certBundle = .ok (first, rest) →
      ∀ o : FlowOutcome, revokeCertificateAction env inp = .ok o →
        o.reportedSerial = first ∧ o.dispatch.req.serial = first) := by
  constructor
  · intro hargs
    unfold revokeCertificateAction
    rw [hreason, if_neg hgate, hflow]
    simp only [if_pos hck, if_pos hargs]
  · intro first rest hbundle o h
    unfold revokeCertificateAction at h
    rw [hreason, if_neg hgate, hflow] at h
    simp only [if_pos hck] at h
    split at h
    · simp at h
    split at h
    · simp at h
    split at h
    · simp at h
    split at h
    · simp at h
    · rename_i first2 rest2 heqb
      rw [hbundle] at heqb
      obtain ⟨rfl, rfl⟩ : first2 = first ∧ rest2 = rest := by
        have := Except.ok.inj heqb
        exact ⟨(congrArg Prod.fst this).symm, (congrArg Prod.snd this).symm⟩
      split at h
      · simp at h
      · rename_i d hrev
        cases h
        refine ⟨rfl, ?_⟩
        unfold revokeFlow.Revoke at hrev
        split at hrev
        · simp at hrev
        · rename_i d0 hdisp
          split at hrev
          · cases hrev
            unfold revokeDispatch at hdisp
            split at hdisp
            · simp at hdisp
            split at hdisp
            · simp at hdisp
            split at hdisp
            · simp at hdisp
            · cases hdisp
              rfl
          · simp at hrev

/-- Witness for `certkey_branch_serial`: with cert/key flags and one
stray positional argument the action fails; with no positional
arguments, a full successful mTLS run reports the bundle's first
serial number "987" and dispatches a request for it. -/
theorem certkey_branch_serial_witness :
    revokeCertificateAction envFix
      { inpFix with certFile := ("c.pem"), keyFile := ("k.pem"),
                    caURLRes := .ok ("https://ca.example") } =
      .error .positionalArgsWithCertKey ∧
    revokeCertificateAction envFix
      { inpFix with certFile := ("c.pem"), keyFile := ("k.pem"),
                    caURLRes := .ok ("https://ca.example"),
                    args := [] } =
      .ok { reportedSerial := ("987"),
            dispatch :=
              { client := .online ("https://ca.example")
                  (.rootFile defaultRootCAPath),
                transport := some
                  { rootCAsPath := defaultRootCAPath,
                    clientCertChainLen := 2,
                    preferServerCipherSuites := true,
                    proxyFromEnvironment := true },
                req := { serial := ("987"), reason := "",
                         reasonCode := 0, ott := "",
                         passive := true } } } ∧
    (({ reportedSerial := ("987"), dispatch :=
          { client := .online ("https://ca.example")
              (.rootFile defaultRootCAPath),
            transport := some
              { rootCAsPath := defaultRootCAPath,
                clientCertChainLen := 2,
                preferServerCipherSuites := true,
                proxyFromEnvironment := true },
            req := { serial := ("987"), reason := "",
                     reasonCode := 0, ott := "",
                     passive := true } } } : FlowOutcome).reportedSerial =
      ("987")) := by
  refine ⟨?_, ?_, ?_⟩
  · exact (certkey_branch_serial envFix
      { inpFix with certFile := ("c.pem"), keyFile := ("k.pem"),
                    caURLRes := .ok ("https://ca.example") }
      { offline := false } 0 (by decide) (by decide) (by decide)
      (by decide)).1 (by decide)
  · decide
  · exact ((certkey_branch_serial envFix
      { inpFix with certFile := ("c.pem"), keyFile := ("k.pem"),
                    caURLRes := .ok ("https://ca.example"),
                    args := [] }
      { offline := false } 0 (by decide) (by decide) (by decide)
      (by decide)).2 ("987") [] (by decide) _ (by decide)).1

/-- Claim C7: supplying exactly one of the cert/key pair fails with a
required-with error whose `withFlag` component (the flag reported as
required) names the missing counterpart: key supplied without cert
requires `cert`; cert supplied without key requires `key`. -/
theorem certkey_required_together (env : Env) (inp : ActionInput)
    (flow : revokeFlow) (n : Int)
    (hreason : ReasonCodeToNum inp.reasonCodeFlag = .ok n)
    (hgate : ¬(inp.offline = true ∧ inp.tokenFlag ≠ ("")))
    (hflow : newRevokeFlow env inp = .ok flow)
    (hargs : inp.args = []) :
    (inp.certFile = ("") → inp.keyFile ≠ ("") →
      revokeCertificateAction env inp =
        .error (.requiredWithFlag ("key") ("cert"))) ∧
    (inp.certFile ≠ ("") → inp.keyFile = ("") →
      revokeCertificateAction env inp =
        .error (.requiredWithFlag ("cert") ("key"))) := by
  constructor
  · intro hc hk
    unfold revokeCertificateAction
    rw [hreason, if_neg hgate, hflow, hargs]
    simp only [if_pos (Or.inr hk), List.length_nil, gt_iff_lt,
      lt_self_iff_false, if_false, if_pos hc]
  · intro hc hk
    unfold revokeCertificateAction
    rw [hreason, if_neg hgate, hflow, hargs]
    simp only [if_pos (Or.inl hc), List.length_nil, gt_iff_lt,
      lt_self_iff_false, if_false, if_neg hc, if_pos hk]

/-- Witness for `certkey_required_together`: cert set with key unset
fails naming `key` as the required flag; key set with cert unset fails
naming `cert`. -/
theorem certkey_required_together_witness :
    revokeCertificateAction envFix
      { inpFix with certFile := ("c.pem"), args := [] } =
      .error (.requiredWithFlag ("cert") ("key")) ∧
    revokeCertificateAction envFix
      { inpFix with keyFile := ("k.pem"), args := [] } =
      .error (.requiredWithFlag ("key") ("cert")) :=
  ⟨(certkey_required_together envFix
      { inpFix with certFile := ("c.pem"), args := [] }
      { offline := false } 0 (by decide) (by decide) (by decide)
      rfl).2 (by decide) rfl,
   (certkey_required_together envFix
      { inpFix with keyFile := ("k.pem"), args := [] }
      { offline := false } 0 (by decide) (by decide) (by decide)
      rfl).1 rfl (by decide)⟩

/-- Claim C8: online with no token, an explicit CA URL is mandatory
(absence fails with the required-flag error for `ca-url`); with a token
present, client resolution never fails with that error, whatever the
token contains. -/
theorem online_caurl_required (env : Env) (f : revokeFlow)
    (inp : ActionInput) (serial token : String)
    (hoff : f.offline = false) (hca : inp.caURLRes = .ok ("")) :
    (token = ("") →
      f.getClient env inp serial token =
        .error (.requiredFlag ("ca-url"))) ∧
    (token ≠ ("") →
      f.getClient env inp serial token ≠
        .error (.requiredFlag ("ca-url"))) := by
  constructor
  · intro ht
    subst ht
    simp [revokeFlow.getClient, hoff, hca]
  · intro ht h
    simp only [revokeFlow.getClient, hoff, Bool.false_eq_true, if_false,
      hca, if_pos ht] at h
    cases hp : env.parseSigned token <;> simp only [hp] at h
    · simp at h
    · simp at h
    · split at h
      · simp at h
      split at h
      · simp at h
      · unfold finishOnlineClient at h
        split at h
        · split at h <;> simp at h
        · simp at h

/-- Witness for `online_caurl_required`: with no token and no CA URL,
resolution fails requiring `ca-url`; with the fixture token present
(and still no CA URL flag) it does not fail with that error. -/
theorem online_caurl_required_witness :
    revokeFlow.getClient { offline := false } envFix inpFix
      ("123") ("") = .error (.requiredFlag ("ca-url")) ∧
    revokeFlow.getClient { offline := false } envFix inpFix
      ("123") ("tok") ≠ .error (.requiredFlag ("ca-url")) :=
  ⟨(online_caurl_required envFix { offline := false } inpFix
      ("123") ("") rfl rfl).1 rfl,
   (online_caurl_required envFix { offline := false } inpFix
      ("123") ("tok") rfl rfl).2 (by decide)⟩

/-- Helper: the common resolution tail never produces an
incompatible-flags error. -/
theorem finishOnlineClient_not_incompatible (r : String) (dre : Bool)
    (c a b : String) :
    finishOnlineClient r dre c ≠ .error (.incompatibleFlags a b) := by
  unfold finishOnlineClient
  split
  · split <;> simp
  · simp

/-- Helper: client resolution never produces an incompatible-flags
error. -/
theorem getClient_not_incompatible (env : Env) (f : revokeFlow)
    (inp : ActionInput) (serial token a b : String) :
    f.getClient env inp serial token ≠
      .error (.incompatibleFlags a b) := by
  unfold revokeFlow.getClient
  split
  · simp
  · split
    · simp
    · split
      · split
        · simp
        · simp
        · split
          · simp
          · split
            · simp
            · exact finishOnlineClient_not_incompatible _ _ _ a b
      · split
        · simp
        · exact finishOnlineClient_not_incompatible _ _ _ a b

/-- Helper: reason-code resolution never produces an
incompatible-flags error. -/
theorem reasonCode_not_incompatible (rc a b : String) :
    ReasonCodeToNum rc ≠ .error (.incompatibleFlags a b) := by
  unfold ReasonCodeToNum
  split
  · simp
  · split
    · split <;> simp
    · split <;> simp

/-- Helper: transport construction never produces an
incompatible-flags error. -/
theorem buildTransport_not_incompatible (env : Env) (inp : ActionInput)
    (a b : String) :
    buildTransport env inp ≠ .error (.incompatibleFlags a b) := by
  unfold buildTransport
  split
  · simp
  split
  · simp
  split
  · simp
  split
  · simp
  · split
    · simp
    · split
      · rename_i e heq
        intro hc
        cases hc
        split at heq
        · split at heq <;> simp at heq
        · simp at heq
      · split <;> simp

/-- Helper: the dispatch step (and the full `Revoke`) never produces
an incompatible-flags error: its error sites are client resolution,
reason-code resolution, transport construction and the remote call. -/
theorem revoke_not_incompatible (env : Env) (f : revokeFlow)
    (inp : ActionInput) (serial token a b : String) :
    f.Revoke env inp serial token ≠
      .error (.incompatibleFlags a b) := by
  unfold revokeFlow.Revoke
  split
  · rename_i e heq
    intro hc
    cases hc
    revert heq
    unfold revokeDispatch
    split
    · rename_i e2 heq2
      intro hc2
      cases hc2
      exact getClient_not_incompatible env f inp serial token a b heq2
    · split
      · rename_i e2 heq2
        intro hc2
        cases hc2
        exact reasonCode_not_incompatible inp.reasonCodeFlag a b heq2
      · split
        · rename_i e2 heq2
          intro hc2
          cases hc2
          revert heq2
          split
          · split
            · rename_i e3 heq3
              intro hc3
              cases hc3
              exact absurd heq3
                (buildTransport_not_incompatible env inp a b)
            · simp
          · simp
        · simp
  · split <;> simp

/-- Claim C9: supplying a token together with cert/key does not abort
the flow with the cert/token incompatible-flags error (the check's
result is discarded in the source); the flow proceeds with the
cert/key branch. -/
theorem cert_token_not_fatal (env : Env) (inp : ActionInput) (n : Int)
    (hreason : ReasonCodeToNum inp.reasonCodeFlag = .ok n)
    (hoff : inp.offline = false) (htok : inp.tokenFlag ≠ ("")) :
    revokeCertificateAction env inp ≠
      .error (.incompatibleFlags ("cert") ("token")) := by
  have hflow : newRevokeFlow env inp = .ok { offline := false } := by
    unfold newRevokeFlow
    rw [hoff]
    simp
  intro h
  unfold revokeCertificateAction at h
  rw [hreason] at h
  rw [if_neg (by rintro ⟨h1, _⟩; rw [hoff] at h1; cases h1)] at h
  simp only [hflow] at h
  split at h
  · split at h
    · simp at h
    split at h
    · simp at h
    split at h
    · simp at h
    split at h
    · simp at h
    · split at h
      · rename_i e hrev
        cases h
        exact revoke_not_incompatible env { offline := false } inp _
          inp.tokenFlag ("cert") ("token") hrev
      · simp at h
  · split at h
    · simp at h
    · simp only [if_neg htok] at h
      split at h
      · rename_i e hrev
        cases h
        exact revoke_not_incompatible env { offline := false } inp
          (inp.args.headD ("")) inp.tokenFlag ("cert") ("token") hrev
      · simp at h

/-- Witness for `cert_token_not_fatal`: cert, key and a matching token
supplied together; the action does not fail with the cert/token
incompatibility and in fact completes, authorized by the token (no
transport), for the bundle serial "987". -/
theorem cert_token_not_fatal_witness :
    revokeCertificateAction envFix
      { inpFix with certFile := ("c.pem"), keyFile := ("k.pem"),
                    tokenFlag := ("tok987"), args := [] } ≠
      .error (.incompatibleFlags ("cert") ("token")) ∧
    revokeCertificateAction envFix
      { inpFix with certFile := ("c.pem"), keyFile := ("k.pem"),
                    tokenFlag := ("tok987"), args := [] } =
      .ok { reportedSerial := ("987"),
            dispatch :=
              { client := .online ("") (.rootFile defaultRootCAPath),
                transport := none,
                req := { serial := ("987"), reason := "",
                         reasonCode := 0, ott := ("tok987"),
                         passive := true } } } :=
  ⟨cert_token_not_fatal envFix
      { inpFix with certFile := ("c.pem"), keyFile := ("k.pem"),
                    tokenFlag := ("tok987"), args := [] }
      0 (by decide) (by decide) (by decide),
   by decide⟩

/-- Claim C10: online with a token whose claims parse (and whose
subject passes the cross-check) but yield no usable hint, and no
explicit CA URL supplied, the resolver does not fail with the
required-flag error for `ca-url`: it falls through to root-file
resolution (defaulting to the well-known path, which must exist) and
constructs the online client with an empty CA URL string. -/
theorem no_hint_fallthrough (env : Env) (f : revokeFlow)
    (inp : ActionInput) (serial token : String)
    (claims : revokeTokenClaims)
    (hoff : f.offline = false) (hca : inp.caURLRes = .ok (""))
    (htok : token ≠ ("")) (hp : env.parseSigned token = .parsed claims)
    (hsub : goEqualFold claims.subject serial = true)
    (hnohint : ¬(claims.sha ≠ ("") ∧ claims.audience ≠ [] ∧
      startsWithHTTP (claims.audience.headD ("")) = true)) :
    f.getClient env inp serial token ≠
      .error (.requiredFlag ("ca-url")) ∧
    f.getClient env inp serial token =
      (if inp.rootFlag = ("") then
        (if env.defaultRootExists then
          .ok (.online ("") (.rootFile defaultRootCAPath))
         else .error (.requiredFlag ("root")))
       else .ok (.online ("") (.rootFile inp.rootFlag))) := by
  have heq : f.getClient env inp serial token =
      finishOnlineClient inp.rootFlag env.defaultRootExists ("") := by
    simp only [revokeFlow.getClient, hoff, Bool.false_eq_true, if_false,
      hca, if_pos htok, hp, hsub, Bool.true_eq_false, if_false,
      if_neg hnohint]
  constructor
  · rw [heq]
    unfold finishOnlineClient
    split
    · split <;> simp
    · simp
  · rw [heq]
    rfl

/-- Witness for `no_hint_fallthrough`: the fixture token "tok987"
(empty fingerprint and audience) with matching serial "987", no CA URL
flag and an existing default root resolves to an online client with an
empty CA URL bound to the well-known root file. -/
theorem no_hint_fallthrough_witness :
    revokeFlow.getClient { offline := false } envFix inpFix
      ("987") ("tok987") ≠ .error (.requiredFlag ("ca-url")) ∧
    revokeFlow.getClient { offline := false } envFix inpFix
      ("987") ("tok987") =
      .ok (.online ("") (.rootFile defaultRootCAPath)) := by
  have h := no_hint_fallthrough envFix { offline := false } inpFix
    ("987") ("tok987") claimsNoHint rfl rfl (by decide) (by decide)
    (by decide) (by decide)
  exact ⟨h.1, by simpa using h.2⟩

/-! ## Theorems about the Reason Code Resolver (claim C4) -/

/-- Claim C4, counterexample: the decimal string for 10^20 - 1 denotes an
integer outside [0,10], yet `ReasonCodeToNum` does not fail with the
out-of-bounds error: the value overflows the 64-bit `strconv.Atoi`, so
the code falls through to the reason-name table lookup and fails with
the unrecognized-reason error instead. -/
theorem reasonCode_overflow_counterexample :
    ReasonCodeToNum ("99999999999999999999") =
      .error (.unrecognizedReason ("99999999999999999999")) ∧
    ¬ ∃ n : Int, ReasonCodeToNum ("99999999999999999999") =
      .error (.reasonOutOfBounds n) := by
  refine ⟨by decide, ?_⟩
  rintro ⟨n, hn⟩
  rw [show ReasonCodeToNum ("99999999999999999999") =
      .error (.unrecognizedReason ("99999999999999999999")) from by decide] at hn
  exact absurd (Except.error.inj hn) (by intro h; cases h)

/-- Claim C4 (amended): `ReasonCodeToNum` maps the empty string to 0; for
every n in [0,10] it maps n's decimal string to n (including 7, which
has no named entry); for every string accepted by the 64-bit `Atoi`
whose value lies outside [0,10] it fails with the out-of-bounds error;
every other non-empty string is normalized (lowercased, spaces removed)
and looked up in `RevocationReasonCodes`, failing with the
unrecognized-reason error naming the offending string when absent.
(Integer strings overflowing a signed 64-bit integer are rejected by
`Atoi` and hence take the table-lookup path.) -/
theorem reasonCodeToNum_spec :
    ReasonCodeToNum ("") = .ok 0 ∧
    (∀ n : Nat, n ≤ 10 → ReasonCodeToNum (toString n) = .ok (n : Int)) ∧
    (∀ s : String, ∀ v : Int, goAtoi s = some v → (v < 0 ∨ 10 < v) →
      ReasonCodeToNum s = .error (.reasonOutOfBounds v)) ∧
    (∀ s : String, ∀ c : Int, s ≠ ("") → goAtoi s = none →
      List.lookup (normalizeReason s) RevocationReasonCodes = some c →
      ReasonCodeToNum s = .ok c) ∧
    (∀ s : String, s ≠ ("") → goAtoi s = none →
      List.lookup (normalizeReason s) RevocationReasonCodes = none →
      ReasonCodeToNum s = .error (.unrecognizedReason s)) := by
  refine ⟨by decide, ?_, ?_, ?_, ?_⟩
  · intro n hn
    interval_cases n <;> decide
  · intro s v h hv
    have hs : s ≠ ("") := by
      intro he
      rw [he, show goAtoi ("") = none from by decide] at h
      cases h
    simp only [ReasonCodeToNum, if_neg hs, h, if_pos hv]
  · intro s c hs h hl
    simp only [ReasonCodeToNum, if_neg hs, h, hl]
  · intro s hs h hl
    simp only [ReasonCodeToNum, if_neg hs, h, hl]

/-- Witness for `reasonCodeToNum_spec`: evaluation at the concrete inputs
"7" (numeric, in range), "-1" (numeric, out of range) and
"KeY ComPromIse" (named reason, case/space-insensitive). -/
theorem reasonCodeToNum_spec_witness :
    ReasonCodeToNum ("7") = .ok 7 ∧
    ReasonCodeToNum ("-1") = .error (.reasonOutOfBounds (-1)) ∧
    ReasonCodeToNum ("KeY ComPromIse") = .ok 1 :=
  ⟨reasonCodeToNum_spec.2.1 7 (by decide),
   reasonCodeToNum_spec.2.2.1 ("-1") (-1) (by decide) (by decide),
   reasonCodeToNum_spec.2.2.2.1 ("KeY ComPromIse") 1 (by decide) (by decide)
     (by decide)⟩

end StepCLI
